import Mathlib

/-!
Shallow embedding of the YouTube MCP server's identifier-normalization and
response-mapping layer (`src/youtube.ts` and the tool layer of the server
module).  Strings handled character-by-character (the regex-based parsers)
are modeled as `List Char`; record fields that are only moved around are
modeled as `String`.
-/

namespace YoutubeMcp

/-- Character class `[a-zA-Z0-9_-]` used by every video-ID regex and by the
channel-ID capture, expressed on code points. -/
def isIdChar (c : Char) : Bool :=
  decide ((97 ≤ c.toNat ∧ c.toNat ≤ 122) ∨ (65 ≤ c.toNat ∧ c.toNat ≤ 90) ∨
    (48 ≤ c.toNat ∧ c.toNat ≤ 57) ∨ c.toNat = 95 ∨ c.toNat = 45)

/-- Character class `[a-zA-Z0-9_.-]` used by the handle-URL capture
(the ID class plus `.`, code point 46). -/
def isHandleChar (c : Char) : Bool :=
  isIdChar c || decide (c.toNat = 46)

/-- The JavaScript `String.prototype.trim` whitespace set: tab, line feed,
vertical tab, form feed, carriage return, space, no-break space, ogham space
mark, the U+2000 to U+200A spaces, line/paragraph separators, narrow no-break
space, medium mathematical space, ideographic space, and the BOM. -/
def isWsChar (c : Char) : Bool :=
  decide (c.toNat = 9 ∨ c.toNat = 10 ∨ c.toNat = 11 ∨ c.toNat = 12 ∨
    c.toNat = 13 ∨ c.toNat = 32 ∨ c.toNat = 160 ∨ c.toNat = 5760 ∨
    (8192 ≤ c.toNat ∧ c.toNat ≤ 8202) ∨ c.toNat = 8232 ∨ c.toNat = 8233 ∨
    c.toNat = 8239 ∨ c.toNat = 8287 ∨ c.toNat = 12288 ∨ c.toNat = 65279)

/-- What the regex metacharacter `.` matches in JavaScript without the `s`
flag: any character except the line terminators LF, CR, U+2028, U+2029. -/
def isDotChar (c : Char) : Bool :=
  !(decide (c.toNat = 10 ∨ c.toNat = 13 ∨ c.toNat = 8232 ∨ c.toNat = 8233))

/-- Embeds `input.trim()`: strip JS whitespace from both ends. -/
def trimList (l : List Char) : List Char :=
  ((l.dropWhile isWsChar).reverse.dropWhile isWsChar).reverse

/-- Embeds the regex fragment `([a-zA-Z0-9_-]{11})` at the current position:
succeeds exactly when the next 11 characters are ID characters, capturing
them. -/
def take11Id (l : List Char) : Option (List Char) :=
  if (l.take 11).length = 11 ∧ (l.take 11).all isIdChar = true then
    some (l.take 11)
  else none

/-- Embeds a greedy `(<class>+)` capture at the current position: the maximal
nonempty run of characters satisfying `p`; fails when the run is empty. -/
def takeRun (p : Char → Bool) (l : List Char) : Option (List Char) :=
  match l.takeWhile p with
  | [] => none
  | c :: cs => some (c :: cs)

/-- Embeds the JS regex engine's unanchored search for a pattern of the form
"literal `lit` followed by tail pattern `tail`": try every start position
left to right; at a position where the literal matches, run the tail on the
remainder; on tail failure keep scanning from the next character. -/
def scanFor (lit : List Char) (tail : List Char → Option (List Char)) :
    List Char → Option (List Char)
  | [] => none
  | c :: rest =>
    if lit.isPrefixOf (c :: rest) then
      match tail ((c :: rest).drop lit.length) with
      | some g => some g
      | none => scanFor lit tail rest
    else scanFor lit tail rest

/-- Embeds the regex fragment `v=([a-zA-Z0-9_-]{11})` tried at the current
position only. -/
def vEqCandidate (l : List Char) : Option (List Char) :=
  match l with
  | c1 :: c2 :: r2 => if c1 = 'v' ∧ c2 = '=' then take11Id r2 else none
  | _ => none

/-- Embeds the greedy tail `.*v=([a-zA-Z0-9_-]{11})` of the first video-ID
pattern: among the split points reachable by `.*` (no line terminators
skipped), greedily prefer the latest position where `v=` followed by an
11-character ID group matches; backtrack to earlier positions otherwise. -/
def matchDotStarVEq : List Char → Option (List Char)
  | [] => none
  | c :: rest =>
    match (if isDotChar c then matchDotStarVEq rest else none) with
    | some g => some g
    | none => vEqCandidate (c :: rest)

def watchLit : List Char := "youtube.com/watch?".data

def youtuBeLit : List Char := "youtu.be/".data

def embedLit : List Char := "youtube.com/embed/".data

def shortsLit : List Char := "youtube.com/shorts/".data

def liveLit : List Char := "youtube.com/live/".data

def vLit : List Char := "youtube.com/v/".data

/-- The source's `VIDEO_ID_PATTERNS` array: the six URL-shape regexes, in
source order, each embedded as an unanchored scan. -/
def VIDEO_ID_PATTERNS : List (List Char → Option (List Char)) :=
  [scanFor watchLit matchDotStarVEq,
   scanFor youtuBeLit take11Id,
   scanFor embedLit take11Id,
   scanFor shortsLit take11Id,
   scanFor liveLit take11Id,
   scanFor vLit take11Id]

/-- The source's `for` loop over `VIDEO_ID_PATTERNS`: return the first
pattern's capture, if any. -/
def firstMatch : List (List Char → Option (List Char)) → List Char →
    Option (List Char)
  | [], _ => none
  | p :: ps, l =>
    match p l with
    | some g => some g
    | none => firstMatch ps l

/-- Embeds `extractVideoId` from `src/youtube.ts`: trim, anchored raw-ID test
`/^[a-zA-Z0-9_-]{11}$/`, then the six URL patterns in order, else null. -/
def extractVideoId (input : List Char) : Option (List Char) :=
  let trimmed := trimList input
  if trimmed.length = 11 ∧ trimmed.all isIdChar = true then some trimmed
  else firstMatch VIDEO_ID_PATTERNS trimmed

/-- The discriminant of the channel identifier union type
`"id" | "handle" | "username"`. -/
inductive ChannelType
  | id
  | handle
  | username

deriving instance DecidableEq, Repr for ChannelType

/-- The tagged channel identifier `{ type, value }`. -/
structure ChannelIdentifier where
  type : ChannelType
  value : String

deriving instance DecidableEq, Repr for ChannelIdentifier

def channelLit : List Char := "youtube.com/channel/".data

def atLit : List Char := "youtube.com/@".data

/-- Embeds `extractChannelIdentifier` from `src/youtube.ts`: trim; channel-URL
regex `/youtube\.com\/channel\/([a-zA-Z0-9_-]+)/`; handle-URL regex
`/youtube\.com\/@([a-zA-Z0-9_.-]+)/` (value is `"@" + captured`); then
`startsWith "@"`; then `startsWith "UC" && length === 24`; final fallback
returns a handle-tagged identifier carrying the trimmed input. -/
def extractChannelIdentifier (input : List Char) : Option ChannelIdentifier :=
  let trimmed := trimList input
  match scanFor channelLit (takeRun isIdChar) trimmed with
  | some g => some ⟨ChannelType.id, String.mk g⟩
  | none =>
    match scanFor atLit (takeRun isHandleChar) trimmed with
    | some g => some ⟨ChannelType.handle, String.mk ('@' :: g)⟩
    | none =>
      if trimmed.head? = some '@' then
        some ⟨ChannelType.handle, String.mk trimmed⟩
      else if trimmed.take 2 = ['U', 'C'] ∧ trimmed.length = 24 then
        some ⟨ChannelType.id, String.mk trimmed⟩
      else some ⟨ChannelType.handle, String.mk trimmed⟩

/-- One thumbnail variant from the upstream `thumbnails` object. -/
structure Thumbnail where
  url : String

deriving instance DecidableEq, Repr for Thumbnail

/-- The upstream `thumbnails` object; only the `high` variant is consumed,
and it may be absent (`thumbnails?.high?.url`). -/
structure Thumbnails where
  high : Option Thumbnail

deriving instance DecidableEq, Repr for Thumbnails

/-- The fields of `item.snippet` consumed by `getVideoDetails`; `tags` and
`thumbnails` are the ones the source coalesces. -/
structure VideoSnippet where
  title : String
  description : String
  channelTitle : String
  channelId : String
  publishedAt : String
  categoryId : String
  tags : Option (List String)
  thumbnails : Option Thumbnails

deriving instance DecidableEq, Repr for VideoSnippet

/-- The fields of `item.statistics` consumed by `getVideoDetails`; all three
are coalesced by the source. -/
structure VideoStatistics where
  viewCount : Option String
  likeCount : Option String
  commentCount : Option String

deriving instance DecidableEq, Repr for VideoStatistics

/-- The fields of `item.contentDetails` consumed by `getVideoDetails`. -/
structure VideoContentDetails where
  duration : String

deriving instance DecidableEq, Repr for VideoContentDetails

/-- One element of the upstream `items` array for the `videos` endpoint. -/
structure VideoItem where
  snippet : VideoSnippet
  statistics : VideoStatistics
  contentDetails : VideoContentDetails

deriving instance DecidableEq, Repr for VideoItem

/-- The exported `VideoDetails` result record. -/
structure VideoDetails where
  title : String
  description : String
  channelTitle : String
  channelId : String
  publishedAt : String
  viewCount : String
  likeCount : String
  commentCount : String
  duration : String
  tags : List String
  thumbnailUrl : String
  categoryId : String

deriving instance DecidableEq, Repr for VideoDetails

/-- The response-shaping part of `getVideoDetails`: the emptiness check
`if (!data.items?.length) throw new Error("Video not found or is private.")`
followed by the field-by-field projection of `data.items[0]` with its `??`
defaults.  `items` is `Option` because the upstream array may be absent. -/
def mapVideoDetails : Option (List VideoItem) → Except String VideoDetails
  | none => Except.error "Video not found or is private."
  | some [] => Except.error "Video not found or is private."
  | some (item :: _) => Except.ok
    { title := item.snippet.title
      description := item.snippet.description
      channelTitle := item.snippet.channelTitle
      channelId := item.snippet.channelId
      publishedAt := item.snippet.publishedAt
      viewCount := item.statistics.viewCount.getD "N/A"
      likeCount := item.statistics.likeCount.getD "N/A"
      commentCount := item.statistics.commentCount.getD "N/A"
      duration := item.contentDetails.duration
      tags := item.snippet.tags.getD []
      thumbnailUrl :=
        ((item.snippet.thumbnails.bind Thumbnails.high).map Thumbnail.url).getD ""
      categoryId := item.snippet.categoryId }

/-- The `item.id` object of a `search` endpoint item. -/
structure SearchId where
  videoId : String

deriving instance DecidableEq, Repr for SearchId

/-- The fields of `item.snippet` consumed by `searchVideos`. -/
structure SearchSnippet where
  title : String
  description : String
  channelTitle : String
  publishedAt : String
  thumbnails : Option Thumbnails

deriving instance DecidableEq, Repr for SearchSnippet

/-- One element of the upstream `items` array for the `search` endpoint. -/
structure SearchItem where
  id : SearchId
  snippet : SearchSnippet

deriving instance DecidableEq, Repr for SearchItem

/-- The exported `SearchResult` result record. -/
structure SearchResult where
  videoId : String
  title : String
  description : String
  channelTitle : String
  publishedAt : String
  thumbnailUrl : String

deriving instance DecidableEq, Repr for SearchResult

/-- The response-shaping part of `searchVideos`:
`(data.items ?? []).map(item => ({...}))` — note there is no emptiness check
and no throw in this mapper. -/
def mapSearchResults (items : Option (List SearchItem)) : List SearchResult :=
  (items.getD []).map fun item =>
    { videoId := item.id.videoId
      title := item.snippet.title
      description := item.snippet.description
      channelTitle := item.snippet.channelTitle
      publishedAt := item.snippet.publishedAt
      thumbnailUrl :=
        ((item.snippet.thumbnails.bind Thumbnails.high).map Thumbnail.url).getD "" }

/-- The fields of `item.snippet` consumed by `getChannelInfo`; `customUrl`,
`country` and `thumbnails` are the ones the source coalesces. -/
structure ChannelSnippet where
  title : String
  description : String
  publishedAt : String
  customUrl : Option String
  country : Option String
  thumbnails : Option Thumbnails

deriving instance DecidableEq, Repr for ChannelSnippet

/-- The fields of `item.statistics` consumed by `getChannelInfo`; all three
are coalesced by the source. -/
structure ChannelStatistics where
  subscriberCount : Option String
  videoCount : Option String
  viewCount : Option String

deriving instance DecidableEq, Repr for ChannelStatistics

/-- One element of the upstream `items` array for the `channels` endpoint. -/
structure ChannelItem where
  id : String
  snippet : ChannelSnippet
  statistics : ChannelStatistics

deriving instance DecidableEq, Repr for ChannelItem

/-- The exported `ChannelInfo` result record. -/
structure ChannelInfo where
  id : String
  title : String
  description : String
  customUrl : String
  publishedAt : String
  subscriberCount : String
  videoCount : String
  viewCount : String
  thumbnailUrl : String
  country : String

deriving instance DecidableEq, Repr for ChannelInfo

/-- The response-shaping part of `getChannelInfo`: the emptiness check
`if (!data.items?.length) throw new Error("Channel not found.")` followed by
the projection of `data.items[0]` with its `??` defaults. -/
def mapChannelInfo : Option (List ChannelItem) → Except String ChannelInfo
  | none => Except.error "Channel not found."
  | some [] => Except.error "Channel not found."
  | some (item :: _) => Except.ok
    { id := item.id
      title := item.snippet.title
      description := item.snippet.description
      customUrl := item.snippet.customUrl.getD ""
      publishedAt := item.snippet.publishedAt
      subscriberCount := item.statistics.subscriberCount.getD "hidden"
      videoCount := item.statistics.videoCount.getD "0"
      viewCount := item.statistics.viewCount.getD "0"
      thumbnailUrl :=
        ((item.snippet.thumbnails.bind Thumbnails.high).map Thumbnail.url).getD ""
      country := item.snippet.country.getD "N/A" }

/-- The fields of `topLevelComment.snippet` consumed by `getVideoComments`. -/
structure CommentSnippet where
  authorDisplayName : String
  textDisplay : String
  publishedAt : String
  likeCount : Int

deriving instance DecidableEq, Repr for CommentSnippet

/-- The `item.snippet.topLevelComment` object. -/
structure TopLevelComment where
  snippet : CommentSnippet

deriving instance DecidableEq, Repr for TopLevelComment

/-- The `item.snippet` object of a `commentThreads` endpoint item. -/
structure CommentThreadSnippet where
  topLevelComment : TopLevelComment
  totalReplyCount : Int

deriving instance DecidableEq, Repr for CommentThreadSnippet

/-- One element of the upstream `items` array for `commentThreads`. -/
structure CommentItem where
  snippet : CommentThreadSnippet

deriving instance DecidableEq, Repr for CommentItem

/-- The exported `Comment` result record. -/
structure Comment where
  author : String
  text : String
  likeCount : Int
  publishedAt : String
  replyCount : Int

deriving instance DecidableEq, Repr for Comment

/-- The response-shaping part of `getVideoComments`:
`(data.items ?? []).map(...)` — again no emptiness check and no throw. -/
def mapComments (items : Option (List CommentItem)) : List Comment :=
  (items.getD []).map fun item =>
    { author := item.snippet.topLevelComment.snippet.authorDisplayName
      text := item.snippet.topLevelComment.snippet.textDisplay
      likeCount := item.snippet.topLevelComment.snippet.likeCount
      publishedAt := item.snippet.topLevelComment.snippet.publishedAt
      replyCount := item.snippet.totalReplyCount }

/-- The query parameters `getChannelInfo` builds from the tagged identifier:
`part` plus exactly one of `id` / `forHandle` / `forUsername`, selected by the
identifier's tag and carrying its value. -/
def channelRequestParams (identifier : ChannelIdentifier) :
    List (String × String) :=
  [("part", "snippet,statistics")] ++
    (match identifier.type with
     | ChannelType.id => [("id", identifier.value)]
     | ChannelType.handle => [("forHandle", identifier.value)]
     | ChannelType.username => [("forUsername", identifier.value)])

/-- The `search_videos` tool's zod argument schema
`z.number().min(1).max(25).optional()`: an absent value is accepted, a
present value is accepted exactly when it lies in `[1, 25]`. -/
def searchMaxResultsValid : Option Int → Bool
  | none => true
  | some n => decide (1 ≤ n ∧ n ≤ 25)

/-- The `get_video_comments` tool's zod argument schema
`z.number().min(1).max(100).optional()`. -/
def commentsMaxResultsValid : Option Int → Bool
  | none => true
  | some n => decide (1 ≤ n ∧ n ≤ 100)

/-- The upstream query parameters built by `searchVideos`. -/
def searchVideosParams (query : String) (maxResults : Int) :
    List (String × String) :=
  [("part", "snippet"), ("q", query), ("type", "video"),
   ("maxResults", toString maxResults)]

/-- The upstream query parameters built by `getVideoComments`. -/
def commentsParams (videoId : String) (maxResults : Int) :
    List (String × String) :=
  [("part", "snippet"), ("videoId", videoId),
   ("maxResults", toString maxResults), ("order", "relevance"),
   ("textFormat", "plainText")]

/-- The `search_videos` tool boundary, up to the upstream request: schema
validation rejects the call (`none`, no request issued) unless `maxResults`
passes the zod bounds; on acceptance the handler calls
`searchVideos(query, key, maxResults ?? 5)`, whose forwarded parameters are
returned. -/
def searchToolUpstream (query : String) (maxResults : Option Int) :
    Option (List (String × String)) :=
  if searchMaxResultsValid maxResults then
    some (searchVideosParams query (maxResults.getD 5))
  else none

/-- The `get_video_comments` tool boundary, up to the upstream request:
schema validation first, then `extractVideoId` (a parse failure also issues
no request), then `getVideoComments(videoId, key, maxResults ?? 20)`. -/
def commentsToolUpstream (url : List Char) (maxResults : Option Int) :
    Option (List (String × String)) :=
  if commentsMaxResultsValid maxResults then
    (extractVideoId url).map fun vid =>
      commentsParams (String.mk vid) (maxResults.getD 20)
  else none

/-- One caption fragment returned by the captions collaborator
(`youtube-transcript`); only its `text` is consumed. -/
structure TranscriptItem where
  text : String

deriving instance DecidableEq, Repr for TranscriptItem

/-- Embeds `items.map(i => i.text).join(" ")`: JavaScript `Array.join` with a
single-space separator (empty string for an empty array, the accumulator
extended with `" " + element` for each later element). -/
def joinWithSpace : List String → String
  | [] => ""
  | a :: as => as.foldl (fun acc t => acc ++ " " ++ t) a

/-- The transcript concatenation applied to caption fragments. -/
def joinTranscript (items : List TranscriptItem) : String :=
  joinWithSpace (items.map TranscriptItem.text)

/-- A tool response: the text payload and the error marker (`isError` is
absent, i.e. false, on success responses). -/
structure ToolText where
  text : String
  isError : Bool

deriving instance DecidableEq, Repr for ToolText

/-- The `get_transcript` tool handler: resolve the video ID (parse failure is
a caller-visible error payload); otherwise fetch fragments from the captions
collaborator — modeled as the opaque function argument `fetchTranscript` —
with `language ?? "en"`, join them with single spaces, and return
`transcript || "No transcript content found."` as a non-error payload. -/
def getTranscriptTool (url : List Char) (language : Option String)
    (fetchTranscript : List Char → String → List TranscriptItem) : ToolText :=
  match extractVideoId url with
  | none =>
    ⟨"Error: Could not extract a valid video ID from the provided URL.", true⟩
  | some vid =>
    let transcript := joinTranscript (fetchTranscript vid (language.getD "en"))
    ⟨if transcript = "" then "No transcript content found." else transcript,
     false⟩

/-- A decidable certificate that the literal of a pattern cannot begin at any
position inside the concrete URL prefix `pre`, whatever all-ID-character text
follows `pre`: at every suffix of `pre`, either the overlapping part of the
literal already mismatches, or the part of the literal that would extend past
`pre` contains a character outside the ID class. -/
def scanFailsOn (lit : List Char) : List Char → Bool
  | [] => true
  | c :: rest =>
    ((!(lit.take (c :: rest).length).isPrefixOf (c :: rest)) ||
      (lit.drop (c :: rest).length).any (fun d => !isIdChar d)) &&
      scanFailsOn lit rest

/-- A concrete upstream video item with every optional field absent, used to
instantiate the defaulting theorems. -/
def vAbsent : VideoItem :=
  ⟨⟨"t", "d", "ct", "ci", "p", "cat", none, none⟩, ⟨none, none, none⟩,
   ⟨"PT1M"⟩⟩

/-- A concrete upstream channel item with every optional field absent. -/
def cAbsent : ChannelItem :=
  ⟨"cid", ⟨"t", "d", "p", none, none, none⟩, ⟨none, none, none⟩⟩

/-- A concrete upstream search item with its optional field absent. -/
def sAbsent : SearchItem := ⟨⟨"vid"⟩, ⟨"t", "d", "ct", "p", none⟩⟩

/-- A concrete captions collaborator returning two fragments, used to
instantiate the transcript theorem. -/
def sampleFetch : List Char → String → List TranscriptItem :=
  fun _ _ => [⟨"hello"⟩, ⟨"world"⟩]

/-! ### The six supported URL shapes, each embedding a raw video ID. -/

def watchUrl (id : List Char) : List Char :=
  "https://www.youtube.com/watch?v=".data ++ id

def youtuBeUrl (id : List Char) : List Char := "https://youtu.be/".data ++ id

def embedUrl (id : List Char) : List Char :=
  "https://www.youtube.com/embed/".data ++ id

def shortsUrl (id : List Char) : List Char :=
  "https://www.youtube.com/shorts/".data ++ id

def liveUrl (id : List Char) : List Char :=
  "https://www.youtube.com/live/".data ++ id

def vUrl (id : List Char) : List Char :=
  "https://www.youtube.com/v/".data ++ id

/-! ### Character-class facts. -/

theorem idChar_not_ws (c : Char) (h : isIdChar c = true) : isWsChar c = false := by
  simp only [isIdChar, decide_eq_true_eq] at h
  simp only [isWsChar, decide_eq_false_iff_not]
  omega

theorem idChar_dot (c : Char) (h : isIdChar c = true) : isDotChar c = true := by
  simp only [isIdChar, decide_eq_true_eq] at h
  simp only [isDotChar, Bool.not_eq_true', decide_eq_false_iff_not]
  omega

theorem id_all_not_ws (id : List Char) (hall : id.all isIdChar = true) :
    id.all (fun c => !isWsChar c) = true := by
  simp only [List.all_eq_true] at hall ⊢
  intro c hc
  simp [idChar_not_ws c (hall c hc)]

/-! ### Trimming facts. -/

theorem dropWhile_of_all_not (p : Char → Bool) (l : List Char)
    (h : l.all (fun c => !p c) = true) : l.dropWhile p = l := by
  cases l with
  | nil => rfl
  | cons c rest =>
    simp only [List.all_cons, Bool.and_eq_true, Bool.not_eq_true'] at h
    simp [List.dropWhile_cons, h.1]

theorem trimList_of_no_ws (l : List Char)
    (h : l.all (fun c => !isWsChar c) = true) : trimList l = l := by
  unfold trimList
  rw [dropWhile_of_all_not _ _ h, dropWhile_of_all_not, List.reverse_reverse]
  rw [List.all_reverse]
  exact h

/-! ### `isPrefixOf` facts. -/

theorem isPrefixOf_append_self (l₁ l₂ : List Char) :
    l₁.isPrefixOf (l₁ ++ l₂) = true := by
  induction l₁ with
  | nil => simp
  | cons a as ih => simp [List.cons_append, List.isPrefixOf_cons₂, ih]

theorem isPrefixOf_split (lit p q : List Char) :
    lit.isPrefixOf (p ++ q) =
      ((lit.take p.length).isPrefixOf p && (lit.drop p.length).isPrefixOf q) := by
  induction p generalizing lit with
  | nil => simp
  | cons x p' ih =>
    cases lit with
    | nil => simp
    | cons a as =>
      simp only [List.cons_append, List.isPrefixOf_cons₂, List.length_cons,
        List.take_succ_cons, List.drop_succ_cons, ih, Bool.and_assoc]

theorem isPrefixOf_false_of_all (lit l : List Char)
    (hany : lit.any (fun c => !isIdChar c) = true)
    (hall : l.all isIdChar = true) : lit.isPrefixOf l = false := by
  induction lit generalizing l with
  | nil => simp at hany
  | cons a as ih =>
    cases l with
    | nil => rfl
    | cons b bs =>
      simp only [List.any_cons, Bool.or_eq_true, Bool.not_eq_true'] at hany
      simp only [List.all_cons, Bool.and_eq_true] at hall
      simp only [List.isPrefixOf_cons₂, Bool.and_eq_false_iff]
      rcases hany with ha | has
      · left
        by_cases hab : a = b
        · rw [hab, hall.1] at ha; cases ha
        · simp [hab]
      · right; exact ih bs has hall.2

/-! ### `scanFor` facts. -/

theorem scanFor_skip_one (y c : Char) (lit₀ : List Char)
    (tail : List Char → Option (List Char)) (l : List Char)
    (h : (y == c) = false) :
    scanFor (y :: lit₀) tail (c :: l) = scanFor (y :: lit₀) tail l := by
  rw [scanFor]
  rw [if_neg]
  simp [List.isPrefixOf_cons₂, h]

theorem scanFor_skip (y : Char) (lit₀ pre : List Char)
    (tail : List Char → Option (List Char)) (l : List Char)
    (h : pre.all (fun c => !(y == c)) = true) :
    scanFor (y :: lit₀) tail (pre ++ l) = scanFor (y :: lit₀) tail l := by
  induction pre with
  | nil => rfl
  | cons c rest ih =>
    simp only [List.all_cons, Bool.and_eq_true, Bool.not_eq_true'] at h
    rw [List.cons_append, scanFor_skip_one _ _ _ _ _ h.1, ih h.2]

theorem scanFor_hit (y : Char) (lit₀ : List Char)
    (tail : List Char → Option (List Char)) (l g : List Char)
    (h : tail l = some g) :
    scanFor (y :: lit₀) tail ((y :: lit₀) ++ l) = some g := by
  have hpre : (y :: lit₀).isPrefixOf ((y :: lit₀) ++ l) = true :=
    isPrefixOf_append_self _ _
  have hdrop : ((y :: lit₀) ++ l).drop (y :: lit₀).length = l :=
    List.drop_left _ _
  rw [List.cons_append] at hpre hdrop ⊢
  rw [scanFor, if_pos hpre, hdrop, h]

theorem scanFor_none_all_id (lit : List Char)
    (tail : List Char → Option (List Char)) (l : List Char)
    (hany : lit.any (fun c => !isIdChar c) = true)
    (hall : l.all isIdChar = true) :
    scanFor lit tail l = none := by
  induction l with
  | nil => rfl
  | cons c rest ih =>
    simp only [List.all_cons, Bool.and_eq_true] at hall
    have hp : lit.isPrefixOf (c :: rest) = false :=
      isPrefixOf_false_of_all _ _ hany
        (by simp [List.all_cons, hall.1, hall.2])
    rw [scanFor, if_neg (by simp [hp])]
    exact ih hall.2

theorem scanFor_append_none (lit : List Char)
    (tail : List Char → Option (List Char)) (pre id : List Char)
    (hfail : scanFailsOn lit pre = true)
    (hany : lit.any (fun c => !isIdChar c) = true)
    (hall : id.all isIdChar = true) :
    scanFor lit tail (pre ++ id) = none := by
  induction pre with
  | nil => exact scanFor_none_all_id _ _ _ hany hall
  | cons c rest ih =>
    rw [scanFailsOn, Bool.and_eq_true] at hfail
    have hp : lit.isPrefixOf ((c :: rest) ++ id) = false := by
      rw [isPrefixOf_split]
      rcases Bool.or_eq_true_iff.mp hfail.1 with h1 | h2
      · rw [Bool.not_eq_true'] at h1
        rw [h1, Bool.false_and]
      · rw [isPrefixOf_false_of_all _ _ h2 hall, Bool.and_false]
    rw [List.cons_append] at hp
    rw [List.cons_append, scanFor, if_neg (by simp [hp])]
    exact ih hfail.2

theorem scanFor_sound (lit : List Char)
    (tail : List Char → Option (List Char)) (l g : List Char)
    (h : scanFor lit tail l = some g) : ∃ l', tail l' = some g := by
  induction l with
  | nil => cases h
  | cons c rest ih =>
    by_cases hp : lit.isPrefixOf (c :: rest) = true
    · rw [scanFor, if_pos hp] at h
      cases ht : tail ((c :: rest).drop lit.length) with
      | some g' =>
        rw [ht] at h
        exact ⟨_, ht.trans h⟩
      | none =>
        rw [ht] at h
        exact ih h
    · rw [scanFor, if_neg hp] at h
      exact ih h

/-! ### `take11Id` and `matchDotStarVEq` facts. -/

theorem take11Id_self (l : List Char) (hlen : l.length = 11)
    (hall : l.all isIdChar = true) : take11Id l = some l := by
  have ht : l.take 11 = l := by rw [← hlen]; exact List.take_length l
  unfold take11Id
  rw [ht, if_pos ⟨hlen, hall⟩]

theorem take11Id_sound (l g : List Char) (h : take11Id l = some g) :
    g.length = 11 ∧ g.all isIdChar = true := by
  unfold take11Id at h
  by_cases hc : (l.take 11).length = 11 ∧ (l.take 11).all isIdChar = true
  · rw [if_pos hc] at h
    cases h
    exact hc
  · rw [if_neg hc] at h
    cases h

theorem vEqCandidate_sound (l g : List Char) (h : vEqCandidate l = some g) :
    g.length = 11 ∧ g.all isIdChar = true := by
  match l with
  | [] => cases h
  | [c] => cases h
  | c1 :: c2 :: r2 =>
    rw [vEqCandidate] at h
    by_cases hc : c1 = 'v' ∧ c2 = '='
    · rw [if_pos hc] at h
      exact take11Id_sound _ _ h
    · rw [if_neg hc] at h
      cases h

theorem vEqCandidate_none_of_id (l : List Char)
    (hall : l.all isIdChar = true) : vEqCandidate l = none := by
  match l with
  | [] => rfl
  | [c] => rfl
  | c1 :: c2 :: r2 =>
    simp only [List.all_cons, Bool.and_eq_true] at hall
    rw [vEqCandidate, if_neg]
    rintro ⟨h1, h2⟩
    rw [h2] at hall
    exact absurd hall.2.1 (by decide)

theorem matchDotStarVEq_sound (l g : List Char)
    (h : matchDotStarVEq l = some g) :
    g.length = 11 ∧ g.all isIdChar = true := by
  induction l with
  | nil => cases h
  | cons c rest ih =>
    rw [matchDotStarVEq] at h
    by_cases hdc : isDotChar c = true
    · rw [if_pos hdc] at h
      cases hm : matchDotStarVEq rest with
      | some g' =>
        rw [hm] at h
        exact ih (hm.trans h)
      | none =>
        rw [hm] at h
        exact vEqCandidate_sound _ _ h
    · rw [if_neg hdc] at h
      exact vEqCandidate_sound _ _ h

theorem matchDotStarVEq_none_of_id (l : List Char)
    (hall : l.all isIdChar = true) : matchDotStarVEq l = none := by
  induction l with
  | nil => rfl
  | cons c rest ih =>
    simp only [List.all_cons, Bool.and_eq_true] at hall
    have hdot : isDotChar c = true := idChar_dot _ hall.1
    rw [matchDotStarVEq, if_pos hdot, ih hall.2]
    exact vEqCandidate_none_of_id _ (by simp [List.all_cons, hall.1, hall.2])

theorem matchDotStarVEq_eq_cons (id : List Char)
    (hall : id.all isIdChar = true) :
    matchDotStarVEq ('=' :: id) = none := by
  rw [matchDotStarVEq, if_pos (by decide), matchDotStarVEq_none_of_id id hall]
  cases id with
  | nil => rfl
  | cons c2 r2 =>
    rw [vEqCandidate, if_neg]
    rintro ⟨h1, h2⟩
    cases h1

theorem matchDotStarVEq_ventry (id : List Char) (hlen : id.length = 11)
    (hall : id.all isIdChar = true) :
    matchDotStarVEq ('v' :: '=' :: id) = some id := by
  rw [matchDotStarVEq, if_pos (by decide), matchDotStarVEq_eq_cons id hall]
  rw [vEqCandidate, if_pos ⟨rfl, rfl⟩]
  exact take11Id_self id hlen hall

/-! ### `firstMatch` facts. -/

theorem firstMatch_none (ps : List (List Char → Option (List Char)))
    (l : List Char) (h : ∀ p ∈ ps, p l = none) : firstMatch ps l = none := by
  induction ps with
  | nil => rfl
  | cons p ps ih =>
    rw [firstMatch, h p (List.mem_cons_self p ps)]
    exact ih fun q hq => h q (List.mem_cons_of_mem p hq)

theorem firstMatch_sound (ps : List (List Char → Option (List Char)))
    (l g : List Char) (h : firstMatch ps l = some g) :
    ∃ p, p ∈ ps ∧ p l = some g := by
  induction ps with
  | nil => cases h
  | cons p ps ih =>
    rw [firstMatch] at h
    cases hp : p l with
    | some g' =>
      rw [hp] at h
      exact ⟨p, List.mem_cons_self p ps, hp.trans h⟩
    | none =>
      rw [hp] at h
      obtain ⟨q, hq, hql⟩ := ih h
      exact ⟨q, List.mem_cons_of_mem p hq, hql⟩

theorem pattern_sound (p : List Char → Option (List Char))
    (hp : p ∈ VIDEO_ID_PATTERNS) (l g : List Char) (h : p l = some g) :
    g.length = 11 ∧ g.all isIdChar = true := by
  simp only [VIDEO_ID_PATTERNS, List.mem_cons, List.not_mem_nil, or_false] at hp
  rcases hp with rfl | rfl | rfl | rfl | rfl | rfl
  · obtain ⟨l', hl'⟩ := scanFor_sound _ _ _ _ h
    exact matchDotStarVEq_sound _ _ hl'
  all_goals
    obtain ⟨l', hl'⟩ := scanFor_sound _ _ _ _ h
    exact take11Id_sound _ _ hl'

/-! ### `extractVideoId` on each supported input shape. -/

theorem watchLit_cons : watchLit = 'y' :: "outube.com/watch?".data := rfl

theorem youtuBeLit_cons : youtuBeLit = 'y' :: "outu.be/".data := rfl

theorem embedLit_cons : embedLit = 'y' :: "outube.com/embed/".data := rfl

theorem shortsLit_cons : shortsLit = 'y' :: "outube.com/shorts/".data := rfl

theorem liveLit_cons : liveLit = 'y' :: "outube.com/live/".data := rfl

theorem vLit_cons : vLit = 'y' :: "outube.com/v/".data := rfl

theorem url_trim (pre id : List Char)
    (hpre : pre.all (fun c => !isWsChar c) = true)
    (hall : id.all isIdChar = true) : trimList (pre ++ id) = pre ++ id := by
  apply trimList_of_no_ws
  rw [List.all_append, id_all_not_ws id hall, hpre]
  rfl

theorem evid_raw (id : List Char) (hlen : id.length = 11)
    (hall : id.all isIdChar = true) : extractVideoId id = some id := by
  have htrim : trimList id = id := trimList_of_no_ws _ (id_all_not_ws id hall)
  simp only [extractVideoId]
  rw [htrim, if_pos ⟨hlen, hall⟩]

theorem evid_watch (id : List Char) (hlen : id.length = 11)
    (hall : id.all isIdChar = true) :
    extractVideoId (watchUrl id) = some id := by
  have hpre : watchUrl id = "https://www.youtube.com/watch?v=".data ++ id := rfl
  have htrim : trimList (watchUrl id) = watchUrl id := by
    rw [hpre]; exact url_trim _ _ (by decide) hall
  have hL : (watchUrl id).length = 43 := by
    rw [hpre, List.length_append, hlen]
    decide
  have h1 : scanFor watchLit matchDotStarVEq (watchUrl id) = some id := by
    have hsplit : watchUrl id =
        "https://www.".data ++
          (('y' :: "outube.com/watch?".data) ++ ('v' :: '=' :: id)) := rfl
    rw [watchLit_cons, hsplit, scanFor_skip 'y' _ _ _ _ (by decide)]
    exact scanFor_hit _ _ _ _ _ (matchDotStarVEq_ventry id hlen hall)
  simp only [extractVideoId]
  rw [htrim, if_neg (by simp [hL])]
  simp only [VIDEO_ID_PATTERNS, firstMatch, h1]

theorem evid_youtuBe (id : List Char) (hlen : id.length = 11)
    (hall : id.all isIdChar = true) :
    extractVideoId (youtuBeUrl id) = some id := by
  have hpre : youtuBeUrl id = "https://youtu.be/".data ++ id := rfl
  have htrim : trimList (youtuBeUrl id) = youtuBeUrl id := by
    rw [hpre]; exact url_trim _ _ (by decide) hall
  have hL : (youtuBeUrl id).length = 28 := by
    rw [hpre, List.length_append, hlen]
    decide
  have h1 : scanFor watchLit matchDotStarVEq (youtuBeUrl id) = none := by
    rw [hpre]
    exact scanFor_append_none _ _ _ _ (by decide) (by decide) hall
  have h2 : scanFor youtuBeLit take11Id (youtuBeUrl id) = some id := by
    have hsplit : youtuBeUrl id =
        "https://".data ++ (('y' :: "outu.be/".data) ++ id) := rfl
    rw [youtuBeLit_cons, hsplit, scanFor_skip 'y' _ _ _ _ (by decide)]
    exact scanFor_hit _ _ _ _ _ (take11Id_self id hlen hall)
  simp only [extractVideoId]
  rw [htrim, if_neg (by simp [hL])]
  simp only [VIDEO_ID_PATTERNS, firstMatch, h1, h2]

theorem evid_embed (id : List Char) (hlen : id.length = 11)
    (hall : id.all isIdChar = true) :
    extractVideoId (embedUrl id) = some id := by
  have hpre : embedUrl id = "https://www.youtube.com/embed/".data ++ id := rfl
  have htrim : trimList (embedUrl id) = embedUrl id := by
    rw [hpre]; exact url_trim _ _ (by decide) hall
  have hL : (embedUrl id).length = 41 := by
    rw [hpre, List.length_append, hlen]
    decide
  have h1 : scanFor watchLit matchDotStarVEq (embedUrl id) = none := by
    rw [hpre]
    exact scanFor_append_none _ _ _ _ (by decide) (by decide) hall
  have h2 : scanFor youtuBeLit take11Id (embedUrl id) = none := by
    rw [hpre]
    exact scanFor_append_none _ _ _ _ (by decide) (by decide) hall
  have h3 : scanFor embedLit take11Id (embedUrl id) = some id := by
    have hsplit : embedUrl id =
        "https://www.".data ++ (('y' :: "outube.com/embed/".data) ++ id) := rfl
    rw [embedLit_cons, hsplit, scanFor_skip 'y' _ _ _ _ (by decide)]
    exact scanFor_hit _ _ _ _ _ (take11Id_self id hlen hall)
  simp only [extractVideoId]
  rw [htrim, if_neg (by simp [hL])]
  simp only [VIDEO_ID_PATTERNS, firstMatch, h1, h2, h3]

theorem evid_shorts (id : List Char) (hlen : id.length = 11)
    (hall : id.all isIdChar = true) :
    extractVideoId (shortsUrl id) = some id := by
  have hpre : shortsUrl id = "https://www.youtube.com/shorts/".data ++ id := rfl
  have htrim : trimList (shortsUrl id) = shortsUrl id := by
    rw [hpre]; exact url_trim _ _ (by decide) hall
  have hL : (shortsUrl id).length = 42 := by
    rw [hpre, List.length_append, hlen]
    decide
  have h1 : scanFor watchLit matchDotStarVEq (shortsUrl id) = none := by
    rw [hpre]
    exact scanFor_append_none _ _ _ _ (by decide) (by decide) hall
  have h2 : scanFor youtuBeLit take11Id (shortsUrl id) = none := by
    rw [hpre]
    exact scanFor_append_none _ _ _ _ (by decide) (by decide) hall
  have h3 : scanFor embedLit take11Id (shortsUrl id) = none := by
    rw [hpre]
    exact scanFor_append_none _ _ _ _ (by decide) (by decide) hall
  have h4 : scanFor shortsLit take11Id (shortsUrl id) = some id := by
    have hsplit : shortsUrl id =
        "https://www.".data ++ (('y' :: "outube.com/shorts/".data) ++ id) := rfl
    rw [shortsLit_cons, hsplit, scanFor_skip 'y' _ _ _ _ (by decide)]
    exact scanFor_hit _ _ _ _ _ (take11Id_self id hlen hall)
  simp only [extractVideoId]
  rw [htrim, if_neg (by simp [hL])]
  simp only [VIDEO_ID_PATTERNS, firstMatch, h1, h2, h3, h4]

theorem evid_live (id : List Char) (hlen : id.length = 11)
    (hall : id.all isIdChar = true) :
    extractVideoId (liveUrl id) = some id := by
  have hpre : liveUrl id = "https://www.youtube.com/live/".data ++ id := rfl
  have htrim : trimList (liveUrl id) = liveUrl id := by
    rw [hpre]; exact url_trim _ _ (by decide) hall
  have hL : (liveUrl id).length = 40 := by
    rw [hpre, List.length_append, hlen]
    decide
  have h1 : scanFor watchLit matchDotStarVEq (liveUrl id) = none := by
    rw [hpre]
    exact scanFor_append_none _ _ _ _ (by decide) (by decide) hall
  have h2 : scanFor youtuBeLit take11Id (liveUrl id) = none := by
    rw [hpre]
    exact scanFor_append_none _ _ _ _ (by decide) (by decide) hall
  have h3 : scanFor embedLit take11Id (liveUrl id) = none := by
    rw [hpre]
    exact scanFor_append_none _ _ _ _ (by decide) (by decide) hall
  have h4 : scanFor shortsLit take11Id (liveUrl id) = none := by
    rw [hpre]
    exact scanFor_append_none _ _ _ _ (by decide) (by decide) hall
  have h5 : scanFor liveLit take11Id (liveUrl id) = some id := by
    have hsplit : liveUrl id =
        "https://www.".data ++ (('y' :: "outube.com/live/".data) ++ id) := rfl
    rw [liveLit_cons, hsplit, scanFor_skip 'y' _ _ _ _ (by decide)]
    exact scanFor_hit _ _ _ _ _ (take11Id_self id hlen hall)
  simp only [extractVideoId]
  rw [htrim, if_neg (by simp [hL])]
  simp only [VIDEO_ID_PATTERNS, firstMatch, h1, h2, h3, h4, h5]

theorem evid_v (id : List Char) (hlen : id.length = 11)
    (hall : id.all isIdChar = true) :
    extractVideoId (vUrl id) = some id := by
  have hpre : vUrl id = "https://www.youtube.com/v/".data ++ id := rfl
  have htrim : trimList (vUrl id) = vUrl id := by
    rw [hpre]; exact url_trim _ _ (by decide) hall
  have hL : (vUrl id).length = 37 := by
    rw [hpre, List.length_append, hlen]
    decide
  have h1 : scanFor watchLit matchDotStarVEq (vUrl id) = none := by
    rw [hpre]
    exact scanFor_append_none _ _ _ _ (by decide) (by decide) hall
  have h2 : scanFor youtuBeLit take11Id (vUrl id) = none := by
    rw [hpre]
    exact scanFor_append_none _ _ _ _ (by decide) (by decide) hall
  have h3 : scanFor embedLit take11Id (vUrl id) = none := by
    rw [hpre]
    exact scanFor_append_none _ _ _ _ (by decide) (by decide) hall
  have h4 : scanFor shortsLit take11Id (vUrl id) = none := by
    rw [hpre]
    exact scanFor_append_none _ _ _ _ (by decide) (by decide) hall
  have h5 : scanFor liveLit take11Id (vUrl id) = none := by
    rw [hpre]
    exact scanFor_append_none _ _ _ _ (by decide) (by decide) hall
  have h6 : scanFor vLit take11Id (vUrl id) = some id := by
    have hsplit : vUrl id =
        "https://www.".data ++ (('y' :: "outube.com/v/".data) ++ id) := rfl
    rw [vLit_cons, hsplit, scanFor_skip 'y' _ _ _ _ (by decide)]
    exact scanFor_hit _ _ _ _ _ (take11Id_self id hlen hall)
  simp only [extractVideoId]
  rw [htrim, if_neg (by simp [hL])]
  simp only [VIDEO_ID_PATTERNS, firstMatch, h1, h2, h3, h4, h5, h6]

/-! ### `joinWithSpace` facts. -/

theorem joinWithSpace_foldl_aux (as : List String) (x y : String) :
    as.foldl (fun acc t => acc ++ " " ++ t) (x ++ y) =
      x ++ as.foldl (fun acc t => acc ++ " " ++ t) y := by
  induction as generalizing y with
  | nil => rfl
  | cons a as ih =>
    simp only [List.foldl_cons]
    rw [show ((x ++ y) ++ " ") ++ a = x ++ ((y ++ " ") ++ a) by
      simp [String.append_assoc]]
    exact ih ((y ++ " ") ++ a)

theorem joinWithSpace_cons (a : String) (l : List String) (hne : l ≠ []) :
    joinWithSpace (a :: l) = a ++ " " ++ joinWithSpace l := by
  cases l with
  | nil => cases hne rfl
  | cons b bs =>
    simp only [joinWithSpace, List.foldl_cons]
    exact joinWithSpace_foldl_aux bs (a ++ " ") b

/-! ### Claim theorems. -/

/-- C3: for every 11-character string over `[A-Za-z0-9_-]`, `extractVideoId`
returns exactly that ID on the raw ID itself (the anchored fast path, which
takes precedence over the URL patterns) and on each of the six supported URL
shapes (`watch?v=`, `youtu.be/`, `/embed/`, `/shorts/`, `/live/`, `/v/`)
embedding it. -/
theorem extractVideoId_supported_shapes (id : List Char)
    (hlen : id.length = 11) (hall : id.all isIdChar = true) :
    extractVideoId id = some id ∧
    extractVideoId (watchUrl id) = some id ∧
    extractVideoId (youtuBeUrl id) = some id ∧
    extractVideoId (embedUrl id) = some id ∧
    extractVideoId (shortsUrl id) = some id ∧
    extractVideoId (liveUrl id) = some id ∧
    extractVideoId (vUrl id) = some id :=
  ⟨evid_raw id hlen hall, evid_watch id hlen hall, evid_youtuBe id hlen hall,
   evid_embed id hlen hall, evid_shorts id hlen hall, evid_live id hlen hall,
   evid_v id hlen hall⟩

/-- Witness for C3 at the concrete ID dQw4w9WgXcQ. -/
theorem extractVideoId_supported_shapes_witness :
    ("dQw4w9WgXcQ".data.length = 11 ∧
      "dQw4w9WgXcQ".data.all isIdChar = true) ∧
    (extractVideoId "dQw4w9WgXcQ".data = some "dQw4w9WgXcQ".data ∧
     extractVideoId (watchUrl "dQw4w9WgXcQ".data) = some "dQw4w9WgXcQ".data ∧
     extractVideoId (youtuBeUrl "dQw4w9WgXcQ".data) =
       some "dQw4w9WgXcQ".data ∧
     extractVideoId (embedUrl "dQw4w9WgXcQ".data) = some "dQw4w9WgXcQ".data ∧
     extractVideoId (shortsUrl "dQw4w9WgXcQ".data) = some "dQw4w9WgXcQ".data ∧
     extractVideoId (liveUrl "dQw4w9WgXcQ".data) = some "dQw4w9WgXcQ".data ∧
     extractVideoId (vUrl "dQw4w9WgXcQ".data) = some "dQw4w9WgXcQ".data) :=
  ⟨⟨by decide, by decide⟩,
   extractVideoId_supported_shapes "dQw4w9WgXcQ".data (by decide) (by decide)⟩

/-- C8: when neither the anchored raw-ID test nor any of the six URL-shape
patterns matches the trimmed input, `extractVideoId` returns none; the
embedding is a total function, so absence is always signaled by a null
result rather than an exception. -/
theorem extractVideoId_none_when_no_pattern (l : List Char)
    (hraw : ¬((trimList l).length = 11 ∧ (trimList l).all isIdChar = true))
    (hpat : ∀ p ∈ VIDEO_ID_PATTERNS, p (trimList l) = none) :
    extractVideoId l = none := by
  simp only [extractVideoId]
  rw [if_neg hraw]
  exact firstMatch_none _ _ hpat

/-- Witness for C8 at the spec's non-YouTube URL. -/
theorem extractVideoId_none_when_no_pattern_witness :
    extractVideoId "https://example.com/not-youtube".data = none :=
  extractVideoId_none_when_no_pattern _ (by decide) (by decide)

/-- C9: every non-null result of `extractVideoId` is exactly 11 characters
long and drawn entirely from `[A-Za-z0-9_-]`. -/
theorem extractVideoId_result_is_valid_id (l g : List Char)
    (h : extractVideoId l = some g) :
    g.length = 11 ∧ g.all isIdChar = true := by
  simp only [extractVideoId] at h
  by_cases hraw : (trimList l).length = 11 ∧ (trimList l).all isIdChar = true
  · rw [if_pos hraw] at h
    cases h
    exact hraw
  · rw [if_neg hraw] at h
    obtain ⟨p, hp, hpl⟩ := firstMatch_sound _ _ _ h
    exact pattern_sound p hp _ _ hpl

/-- Witness for C9 at a concrete input with a non-null result. -/
theorem extractVideoId_result_is_valid_id_witness :
    ("abcABC123_-".data.length = 11 ∧
      "abcABC123_-".data.all isIdChar = true) :=
  extractVideoId_result_is_valid_id "abcABC123_-".data "abcABC123_-".data
    (by decide)

/-- C1 (divergence of the code from the specified fallback): on an input
that matches neither channel-URL nor handle-URL shape, does not start with
"@", and is not a 24-character "UC" ID, the final fallback of
`extractChannelIdentifier` returns a handle-tagged identifier, not the
username-tagged identifier the specification describes. -/
theorem extractChannelIdentifier_fallback_is_handle_tagged :
    extractChannelIdentifier "somechannel".data =
      some ⟨ChannelType.handle, "somechannel"⟩ ∧
    extractChannelIdentifier "somechannel".data ≠
      some ⟨ChannelType.username, "somechannel"⟩ := by
  exact ⟨by decide, by decide⟩

/-- C10: `extractChannelIdentifier` never returns null, and any input that
trims to the empty string yields the handle-tagged identifier with empty
value. -/
theorem extractChannelIdentifier_total (l w : List Char)
    (hw : trimList w = []) :
    (extractChannelIdentifier l).isSome = true ∧
    extractChannelIdentifier w = some ⟨ChannelType.handle, ""⟩ := by
  constructor
  · simp only [extractChannelIdentifier]
    cases scanFor channelLit (takeRun isIdChar) (trimList l) with
    | some g => rfl
    | none =>
      cases scanFor atLit (takeRun isHandleChar) (trimList l) with
      | some g => rfl
      | none =>
        by_cases h1 : (trimList l).head? = some '@'
        · rw [if_pos h1]
          rfl
        · rw [if_neg h1]
          by_cases h2 : (trimList l).take 2 = ['U', 'C'] ∧
            (trimList l).length = 24
          · rw [if_pos h2]
            rfl
          · rw [if_neg h2]
            rfl
  · simp only [extractChannelIdentifier, hw]
    rfl

/-- Witness for C10 at a whitespace-only input. -/
theorem extractChannelIdentifier_total_witness :
    trimList "  ".data = [] ∧
    (extractChannelIdentifier "x".data).isSome = true ∧
    extractChannelIdentifier "  ".data =
      some ⟨ChannelType.handle, ""⟩ := by
  have h := extractChannelIdentifier_total "x".data "  ".data (by decide)
  exact ⟨by decide, h.1, h.2⟩

/-- C7: exactly one tag is active on a `ChannelIdentifier`, and the channel
query parameter is selected solely from that tag — `id` for kind id,
`forHandle` for kind handle, `forUsername` for kind username — carrying the
identifier's value, with the other two parameters absent. -/
theorem channel_params_by_tag (t : ChannelType) (v : String) :
    (channelRequestParams ⟨t, v⟩).lookup "id" =
      (if t = ChannelType.id then some v else none) ∧
    (channelRequestParams ⟨t, v⟩).lookup "forHandle" =
      (if t = ChannelType.handle then some v else none) ∧
    (channelRequestParams ⟨t, v⟩).lookup "forUsername" =
      (if t = ChannelType.username then some v else none) ∧
    (channelRequestParams ⟨t, v⟩).lookup "part" =
      some "snippet,statistics" := by
  cases t <;> simp [channelRequestParams, List.lookup]

/-- C2 counterexample: on an empty (or absent) upstream items array the
search and comments mappers do not fail — each returns an empty result. -/
theorem empty_items_search_comments_no_error :
    mapSearchResults (some []) = ([] : List SearchResult) ∧
    mapSearchResults none = ([] : List SearchResult) ∧
    mapComments (some []) = ([] : List Comment) ∧
    mapComments none = ([] : List Comment) :=
  ⟨rfl, rfl, rfl, rfl⟩

/-- C2 amended: on an empty or absent items array the video-details and
channel-info mappers fail with their not-found errors, while the search and
comments mappers return an empty list. -/
theorem mappers_on_empty_items (vi : Option (List VideoItem))
    (ci : Option (List ChannelItem)) (si : Option (List SearchItem))
    (co : Option (List CommentItem))
    (hv : vi = none ∨ vi = some []) (hc : ci = none ∨ ci = some [])
    (hs : si = none ∨ si = some []) (hco : co = none ∨ co = some []) :
    mapVideoDetails vi = Except.error "Video not found or is private." ∧
    mapChannelInfo ci = Except.error "Channel not found." ∧
    mapSearchResults si = [] ∧ mapComments co = [] := by
  refine ⟨?_, ?_, ?_, ?_⟩
  · rcases hv with rfl | rfl <;> rfl
  · rcases hc with rfl | rfl <;> rfl
  · rcases hs with rfl | rfl <;> rfl
  · rcases hco with rfl | rfl <;> rfl

/-- Witness for the amended C2 at concrete empty and absent items arrays. -/
theorem mappers_on_empty_items_witness :
    mapVideoDetails (some []) =
      Except.error "Video not found or is private." ∧
    mapChannelInfo none = Except.error "Channel not found." ∧
    mapSearchResults (some []) = [] ∧ mapComments none = [] :=
  mappers_on_empty_items _ _ _ _ (Or.inr rfl) (Or.inl rfl) (Or.inr rfl)
    (Or.inl rfl)

/-- C5: each absent optional upstream field maps, independently of the other
fields, to its defined sentinel: video details viewCount, likeCount and
commentCount to "N/A", tags to the empty sequence, thumbnailUrl to the empty
string; channel info customUrl and thumbnailUrl to the empty string,
subscriberCount to "hidden", videoCount and viewCount to "0", country to
"N/A"; search thumbnailUrl to the empty string. -/
theorem optional_field_defaults (v : VideoItem) (vr : List VideoItem)
    (c : ChannelItem) (cr : List ChannelItem)
    (s : SearchItem) (sr : List SearchItem) :
    (v.statistics.viewCount = none →
      (mapVideoDetails (some (v :: vr))).toOption.map VideoDetails.viewCount =
        some "N/A") ∧
    (v.statistics.likeCount = none →
      (mapVideoDetails (some (v :: vr))).toOption.map VideoDetails.likeCount =
        some "N/A") ∧
    (v.statistics.commentCount = none →
      (mapVideoDetails (some (v :: vr))).toOption.map
        VideoDetails.commentCount = some "N/A") ∧
    (v.snippet.tags = none →
      (mapVideoDetails (some (v :: vr))).toOption.map VideoDetails.tags =
        some []) ∧
    (v.snippet.thumbnails = none →
      (mapVideoDetails (some (v :: vr))).toOption.map
        VideoDetails.thumbnailUrl = some "") ∧
    (c.snippet.customUrl = none →
      (mapChannelInfo (some (c :: cr))).toOption.map ChannelInfo.customUrl =
        some "") ∧
    (c.snippet.thumbnails = none →
      (mapChannelInfo (some (c :: cr))).toOption.map
        ChannelInfo.thumbnailUrl = some "") ∧
    (c.statistics.subscriberCount = none →
      (mapChannelInfo (some (c :: cr))).toOption.map
        ChannelInfo.subscriberCount = some "hidden") ∧
    (c.statistics.videoCount = none →
      (mapChannelInfo (some (c :: cr))).toOption.map ChannelInfo.videoCount =
        some "0") ∧
    (c.statistics.viewCount = none →
      (mapChannelInfo (some (c :: cr))).toOption.map ChannelInfo.viewCount =
        some "0") ∧
    (c.snippet.country = none →
      (mapChannelInfo (some (c :: cr))).toOption.map ChannelInfo.country =
        some "N/A") ∧
    (s.snippet.thumbnails = none →
      ((mapSearchResults (some (s :: sr))).map
        SearchResult.thumbnailUrl).head? = some "") := by
  refine ⟨fun h => ?_, fun h => ?_, fun h => ?_, fun h => ?_, fun h => ?_,
    fun h => ?_, fun h => ?_, fun h => ?_, fun h => ?_, fun h => ?_,
    fun h => ?_, fun h => ?_⟩
  all_goals
    simp [mapVideoDetails, mapChannelInfo, mapSearchResults, Except.toOption,
      h]

/-- Witness for C5 at concrete items with every optional field absent. -/
theorem optional_field_defaults_witness :
    (mapVideoDetails (some [vAbsent])).toOption.map VideoDetails.viewCount =
      some "N/A" ∧
    (mapVideoDetails (some [vAbsent])).toOption.map VideoDetails.likeCount =
      some "N/A" ∧
    (mapVideoDetails (some [vAbsent])).toOption.map
      VideoDetails.commentCount = some "N/A" ∧
    (mapVideoDetails (some [vAbsent])).toOption.map VideoDetails.tags =
      some [] ∧
    (mapVideoDetails (some [vAbsent])).toOption.map
      VideoDetails.thumbnailUrl = some "" ∧
    (mapChannelInfo (some [cAbsent])).toOption.map ChannelInfo.customUrl =
      some "" ∧
    (mapChannelInfo (some [cAbsent])).toOption.map ChannelInfo.thumbnailUrl =
      some "" ∧
    (mapChannelInfo (some [cAbsent])).toOption.map
      ChannelInfo.subscriberCount = some "hidden" ∧
    (mapChannelInfo (some [cAbsent])).toOption.map ChannelInfo.videoCount =
      some "0" ∧
    (mapChannelInfo (some [cAbsent])).toOption.map ChannelInfo.viewCount =
      some "0" ∧
    (mapChannelInfo (some [cAbsent])).toOption.map ChannelInfo.country =
      some "N/A" ∧
    ((mapSearchResults (some [sAbsent])).map
      SearchResult.thumbnailUrl).head? = some "" := by
  obtain ⟨h1, h2, h3, h4, h5, h6, h7, h8, h9, h10, h11, h12⟩ :=
    optional_field_defaults vAbsent [] cAbsent [] sAbsent []
  exact ⟨h1 rfl, h2 rfl, h3 rfl, h4 rfl, h5 rfl, h6 rfl, h7 rfl, h8 rfl,
    h9 rfl, h10 rfl, h11 rfl, h12 rfl⟩

/-- C4: a `search_videos` call whose maxResults lies outside 1 to 25, and a
`get_video_comments` call whose maxResults lies outside 1 to 100, are
rejected by schema validation before any upstream request is built; any
value that does reach the upstream maxResults parameter is within the
documented bounds. -/
theorem maxResults_bounds_enforced (q : String) (u : List Char)
    (m k n j : Int) (ps cs : List (String × String))
    (hm : m < 1 ∨ 25 < m) (hk : k < 1 ∨ 100 < k)
    (hn : searchToolUpstream q (some n) = some ps)
    (hj : commentsToolUpstream u (some j) = some cs) :
    searchToolUpstream q (some m) = none ∧
    commentsToolUpstream u (some k) = none ∧
    (1 ≤ n ∧ n ≤ 25 ∧ ("maxResults", toString n) ∈ ps) ∧
    (1 ≤ j ∧ j ≤ 100 ∧ ("maxResults", toString j) ∈ cs) := by
  refine ⟨?_, ?_, ?_, ?_⟩
  · rw [searchToolUpstream, if_neg]
    simp only [searchMaxResultsValid, decide_eq_true_eq]
    omega
  · rw [commentsToolUpstream, if_neg]
    simp only [commentsMaxResultsValid, decide_eq_true_eq]
    omega
  · rw [searchToolUpstream] at hn
    by_cases hv : searchMaxResultsValid (some n) = true
    · rw [if_pos hv] at hn
      simp only [searchMaxResultsValid, decide_eq_true_eq] at hv
      cases hn
      refine ⟨hv.1, hv.2, ?_⟩
      exact List.mem_cons_of_mem _ (List.mem_cons_of_mem _
        (List.mem_cons_of_mem _ (List.mem_cons_self _ _)))
    · rw [if_neg hv] at hn
      cases hn
  · rw [commentsToolUpstream] at hj
    by_cases hv : commentsMaxResultsValid (some j) = true
    · rw [if_pos hv] at hj
      simp only [commentsMaxResultsValid, decide_eq_true_eq] at hv
      cases he : extractVideoId u with
      | none => rw [he] at hj; cases hj
      | some vid =>
        rw [he] at hj
        simp only [Option.map_some'] at hj
        cases hj
        refine ⟨hv.1, hv.2, ?_⟩
        exact List.mem_cons_of_mem _ (List.mem_cons_of_mem _
          (List.mem_cons_self _ _))
    · rw [if_neg hv] at hj
      cases hj

/-- Witness for C4 at maxResults 30 (search) and 101 (comments), with
in-range calls 5 and 20 reaching the upstream parameters. -/
theorem maxResults_bounds_enforced_witness :
    ((30 : Int) < 1 ∨ 25 < (30 : Int)) ∧
    ((101 : Int) < 1 ∨ 100 < (101 : Int)) ∧
    searchToolUpstream "lean" (some 30) = none ∧
    commentsToolUpstream "dQw4w9WgXcQ".data (some 101) = none ∧
    (1 ≤ (5 : Int) ∧ (5 : Int) ≤ 25 ∧
      ("maxResults", toString (5 : Int)) ∈ searchVideosParams "lean" 5) ∧
    (1 ≤ (20 : Int) ∧ (20 : Int) ≤ 100 ∧
      ("maxResults", toString (20 : Int)) ∈
        commentsParams "dQw4w9WgXcQ" 20) := by
  have h := maxResults_bounds_enforced "lean" "dQw4w9WgXcQ".data 30 101 5 20
    (searchVideosParams "lean" 5) (commentsParams "dQw4w9WgXcQ" 20)
    (by decide) (by decide) (by rfl) (by rfl)
  exact ⟨by decide, by decide, h.1, h.2.1, h.2.2.1, h.2.2.2⟩

/-- C6: with a resolvable video ID, the transcript tool reports no error,
its payload is the fragments' text joined by single spaces (fetched with the
caller's language code, defaulting to "en"), and an empty concatenation
yields the "No transcript content found." message as a success payload; the
join really is single-space concatenation. -/
theorem transcript_tool_behavior (url : List Char) (language : Option String)
    (f : List Char → String → List TranscriptItem) (vid : List Char)
    (hvid : extractVideoId url = some vid) (i : TranscriptItem)
    (is : List TranscriptItem) :
    (getTranscriptTool url language f).isError = false ∧
    (joinTranscript (f vid (language.getD "en")) = "" →
      (getTranscriptTool url language f).text =
        "No transcript content found.") ∧
    (joinTranscript (f vid (language.getD "en")) ≠ "" →
      (getTranscriptTool url language f).text =
        joinTranscript (f vid (language.getD "en"))) ∧
    joinTranscript [] = "" ∧
    joinTranscript [i] = i.text ∧
    (is ≠ [] →
      joinTranscript (i :: is) = i.text ++ " " ++ joinTranscript is) := by
  refine ⟨?_, ?_, ?_, rfl, rfl, ?_⟩
  · simp [getTranscriptTool, hvid]
  · intro h
    simp [getTranscriptTool, hvid, h]
  · intro h
    simp [getTranscriptTool, hvid, h]
  · intro h
    unfold joinTranscript
    rw [List.map_cons]
    exact joinWithSpace_cons _ _ (by simpa using h)

/-- Witness for C6 at a concrete URL, the default language, and a concrete
two-fragment collaborator. -/
theorem transcript_tool_behavior_witness :
    (getTranscriptTool "dQw4w9WgXcQ".data none sampleFetch).isError =
      false ∧
    (getTranscriptTool "dQw4w9WgXcQ".data none sampleFetch).text =
      "hello world" ∧
    joinTranscript [⟨"a"⟩, ⟨"b"⟩] = "a" ++ " " ++ joinTranscript [⟨"b"⟩] := by
  have h := transcript_tool_behavior "dQw4w9WgXcQ".data none sampleFetch
    "dQw4w9WgXcQ".data (by decide) ⟨"a"⟩ [⟨"b"⟩]
  refine ⟨h.1, ?_, h.2.2.2.2.2 (by decide)⟩
  rw [h.2.2.1 (by decide)]
  decide

end YoutubeMcp
